import Mathlib

/-!
Verification of the SketchToFace client (src/src/component/home.tsx).

The development embeds the logic-bearing parts of the component as pure
Lean definitions:

* `processDims` — the dimension computation of `processImage`
  (lines 144–159): two sequential caps at 800 pixels, each using
  JavaScript `Math.round` on the proportionally scaled value.
* `handleSubmit` — the submission controller (lines 209–328), embedded as
  a function from the form state and the server's response to the list of
  observable effects (notifications, network request, interval start/stop,
  progress updates, console logging) it performs, in order.
* `progressTick` — the body of the simulated-progress interval callback
  (lines 243–250), over exact rationals.
* `UIStep`/`stepUI` — the object-URL (temporary display handle) life cycle:
  render-time `URL.createObjectURL` calls (lines 395 and 700), the cleanup
  effect on result change/unmount (lines 54–61), the explicit revocations
  on reset (lines 660–666 and 724–731).
* `processImageOutcome` — the branching of `processImage` around canvas
  context availability and `toBlob` (lines 162–199).
-/

namespace SketchToFace

/-- JavaScript `Math.round (a / b)` for natural `a` and positive natural `b`:
rounding half away from zero (here: half up), i.e. `⌊a / b + 1 / 2⌋`. -/
def jsRound (a b : Nat) : Nat := (2 * a + b) / (2 * b)

/-- The dimension computation of `processImage` (home.tsx lines 144–159):
`MAX_WIDTH = MAX_HEIGHT = 800`; first, if `width > 800`, the height is
rescaled by `Math.round(height * 800 / width)` and the width set to 800;
then, if the (possibly updated) height exceeds 800, the (possibly updated)
width is rescaled by `Math.round(width * 800 / height)` and the height set
to 800. -/
def processDims (w h : Nat) : Nat × Nat :=
  let p1 : Nat × Nat := if 800 < w then (800, jsRound (h * 800) w) else (w, h)
  if 800 < p1.2 then (jsRound (p1.1 * 800) p1.2, 800) else p1

/-- JavaScript `String.prototype.trim()`: strips leading and trailing
whitespace characters. -/
def jsTrim (s : String) : String :=
  String.mk (((s.data.dropWhile Char.isWhitespace).reverse.dropWhile
    Char.isWhitespace).reverse)

/-- The form state read by `handleSubmit`: the (preprocessed) selected file
— modelled by an identifying token — the free-text description, and the
gender radio value (`""` when none is selected, since the state is
initialised to `useState('')`). -/
structure FormState where
  selectedFile : Option Nat
  description : String
  selectedGender : String
deriving DecidableEq, Repr

/-- The three ways the awaited `fetch` can resolve for the controller:
a 2xx response whose body is consumed as an opaque blob; a non-2xx
response carrying a status, a status text and a body that either fails to
parse as JSON (`none`) or parses to an object with optional `detail` and
`message` string fields; or a network-level exception. -/
inductive Response where
  | success (blobId : Nat)
  | httpError (status : Nat) (statusText : String)
      (jsonBody : Option (Option String × Option String))
  | networkError (excMessage : String)
deriving DecidableEq, Repr

/-- Kind tag of a user-facing toast, `{type: 'success' | 'error'}`. -/
inductive NotifKind where
  | success
  | error
deriving DecidableEq, Repr

/-- Observable effects performed by `handleSubmit`, in program order. -/
inductive Ev where
  | setErrorMessage (m : String)
  | clearToast
  | notify (k : NotifKind) (m : String)
  | setLoading (b : Bool)
  | setProgress (p : Nat)
  | startProgressInterval
  | stopProgressInterval
  | netRequest (file : Nat) (prompt : String)
  | consoleError (m : String)
  | storeResult (blobId : Nat)
  | openModal
  | setLoadingFalseDelayed
deriving DecidableEq, Repr

/-- JavaScript `a || b` on an optional string field against a string
default: `undefined` and the empty string are falsy. -/
def jsOrString (a : Option String) (b : String) : String :=
  match a with
  | none => b
  | some s => if s = "" then b else s

/-- The error message computed in the non-ok branch (home.tsx lines
268–277): start from the default `'Failed to process the sketch'`; if the
body parses as JSON take `errorData.detail || errorData.message ||` that
default; if parsing throws, use the status line
`Server error: <status> <statusText>`. -/
def serverErrorMessage (body : Option (Option String × Option String))
    (status : Nat) (statusText : String) : String :=
  match body with
  | none => "Server error: " ++ toString status ++ " " ++ statusText
  | some (d, m) => jsOrString d (jsOrString m "Failed to process the sketch")

/-- The combined prompt `` `${description} (${selectedGender})` ``
(home.tsx line 257). -/
def combinedPrompt (s : FormState) : String :=
  s.description ++ " (" ++ s.selectedGender ++ ")"

/-- The submission controller `handleSubmit` (home.tsx lines 209–328),
embedded as the ordered list of observable effects it performs given the
form state and how the single `fetch` resolves. Validation happens before
any network traffic: missing file, then blank (trimmed-empty) description,
then unselected gender each notify and return. On passing validation the
simulated progress interval is started, the one multipart request is
issued, and the response is dispatched: success clears the interval, sets
progress to 100, stores the result, notifies success and opens the modal;
a non-ok response throws the parsed error message into the catch block,
which logs it, clears the interval and shows the fixed generic error
toast; a network exception takes the same catch path with the exception's
message. -/
def handleSubmit (s : FormState) (resp : Response) : List Ev :=
  [Ev.setErrorMessage "", Ev.clearToast] ++
  match s.selectedFile with
  | none => [Ev.notify NotifKind.error "Please upload a sketch first"]
  | some f =>
    if jsTrim s.description = "" then
      [Ev.notify NotifKind.error "Please provide a description"]
    else if s.selectedGender = "" then
      [Ev.notify NotifKind.error "Please select a gender"]
    else
      [Ev.setLoading true, Ev.setProgress 0, Ev.startProgressInterval,
       Ev.netRequest f (combinedPrompt s)] ++
      match resp with
      | Response.success b =>
          [Ev.stopProgressInterval, Ev.setProgress 100, Ev.storeResult b,
           Ev.notify NotifKind.success
             "Face was successfully generated from your sketch!",
           Ev.openModal, Ev.setLoadingFalseDelayed]
      | Response.httpError st stx body =>
          [Ev.consoleError
             ("Error processing sketch: " ++ serverErrorMessage body st stx),
           Ev.stopProgressInterval,
           Ev.notify NotifKind.error
             "Failed to process the sketch. Please try again.",
           Ev.setLoadingFalseDelayed]
      | Response.networkError m =>
          [Ev.consoleError ("Error processing sketch: " ++ m),
           Ev.stopProgressInterval,
           Ev.notify NotifKind.error
             "Failed to process the sketch. Please try again.",
           Ev.setLoadingFalseDelayed]

/-- Whether an effect is the network request. -/
def Ev.isNetRequest : Ev → Bool
  | Ev.netRequest _ _ => true
  | _ => false

/-- Whether an effect is a user-facing toast. -/
def Ev.isNotify : Ev → Bool
  | Ev.notify _ _ => true
  | _ => false

/-- Whether an effect starts the simulated-progress interval. -/
def Ev.isIntervalStart : Ev → Bool
  | Ev.startProgressInterval => true
  | _ => false

/-- Whether an effect clears the simulated-progress interval. -/
def Ev.isIntervalStop : Ev → Bool
  | Ev.stopProgressInterval => true
  | _ => false

/-- One firing of the simulated-progress interval callback (home.tsx lines
243–250): when the previous value is below 85 it adds
`Math.random() * 3` — a value `r` with `0 ≤ r < 3` — otherwise it leaves
the value unchanged. Progress is an exact rational here. -/
def progressTick (prev r : ℚ) : ℚ :=
  if prev < 85 then prev + r else prev

/-- The simulated progress after a sequence of interval firings with the
given random increments, starting from the initial `setLoadingProgress(0)`. -/
def runProgress (rs : List ℚ) : ℚ :=
  rs.foldl progressTick 0

/-- Steps of the component life cycle that touch temporary display handles
(object URLs). `render` is one React render pass: with a file selected it
evaluates `URL.createObjectURL(selectedFile)` for the preview `img` (line
395) and, when a result is also live (the `Modal` subtree is mounted, line
693), a second one for the modal's `sketchUrl` prop (line 700); none of
these is ever revoked. `selectFile` is `setSelectedFile` after
`processImage`; `removeFile` is the remove button (line 435), which only
nulls the state. `succeed` stores a fresh result handle (lines 284–296),
whereupon the cleanup of the `[result]` effect (lines 54–61) revokes the
previous result handle if any. `reset` is the Create-New-Image action
(lines 658–667 / 721–732): it revokes the current result handle and clears
the state. `unmount` runs the effect cleanup, revoking the live result
handle. -/
inductive UIStep where
  | render
  | selectFile (f : Nat)
  | removeFile
  | succeed
  | reset
  | unmount
deriving DecidableEq, Repr

/-- Handle-accounting state: the form/result state plus, for each of the
two artifact kinds, how many display handles are currently live
(created and not revoked). -/
structure UIState where
  selectedFile : Option Nat
  resultLive : Bool
  sketchHandles : Nat
  resultHandles : Nat
deriving DecidableEq, Repr

/-- The component before any interaction. -/
def initUI : UIState :=
  { selectedFile := none, resultLive := false,
    sketchHandles := 0, resultHandles := 0 }

/-- The effect of one life-cycle step on the handle accounting, read off
the code paths cited in `UIStep`. -/
def stepUI (s : UIState) : UIStep → UIState
  | UIStep.render =>
      { s with sketchHandles := s.sketchHandles +
          (match s.selectedFile with
           | some _ => if s.resultLive then 2 else 1
           | none => 0) }
  | UIStep.selectFile f => { s with selectedFile := some f }
  | UIStep.removeFile => { s with selectedFile := none }
  | UIStep.succeed =>
      { s with
          resultLive := true
          resultHandles := s.resultHandles + 1 -
            (if s.resultLive then 1 else 0) }
  | UIStep.reset =>
      { s with
          resultLive := false
          selectedFile := none
          resultHandles := s.resultHandles -
            (if s.resultLive then 1 else 0) }
  | UIStep.unmount =>
      { s with
          resultLive := false
          resultHandles := s.resultHandles -
            (if s.resultLive then 1 else 0) }

/-- Run a sequence of life-cycle steps from the initial component state. -/
def runUI (steps : List UIStep) : UIState :=
  steps.foldl stepUI initUI

/-- Outcomes of `processImage` after the image has loaded (home.tsx lines
162–199): what, if anything, gets stored by `setSelectedFile`. -/
inductive ProcOutcome where
  | setFile (resized : Bool) (file : Nat)
  | noAction
  | loadError
deriving DecidableEq, Repr

/-- The branching of `processImage` (home.tsx lines 134–201): if the image
fails to decode, `onerror` fires an error toast and nothing is selected;
otherwise, if `canvas.getContext('2d')` returns a context, the resized
canvas is encoded with `toBlob` — when the callback receives a blob the
re-encoded file is selected, but when it receives `null` the callback body
is skipped and nothing at all happens; only if the context is unavailable
is the original, unresized file selected as a fallback. -/
def processImageOutcome (decodeOk : Bool) (ctxAvail : Bool)
    (encoded : Option Nat) (file : Nat) : ProcOutcome :=
  if decodeOk then
    if ctxAvail then
      match encoded with
      | some b => ProcOutcome.setFile true b
      | none => ProcOutcome.noAction
    else ProcOutcome.setFile false file
  else ProcOutcome.loadError

/-- The claim that each live artifact owns exactly one display handle that
never outlives it, read over the life-cycle model: a live sketch or a live
result accounts for exactly one live handle, and an artifact that is gone
accounts for none. -/
def HandleOwnershipClaim : Prop := ∀ steps : List UIStep,
  ((runUI steps).selectedFile.isSome → (runUI steps).sketchHandles = 1) ∧
  ((runUI steps).selectedFile = none → (runUI steps).sketchHandles = 0) ∧
  ((runUI steps).resultLive = true → (runUI steps).resultHandles = 1) ∧
  ((runUI steps).resultLive = false → (runUI steps).resultHandles = 0)

/-- The claim that whenever re-encoding is unsupported — the 2D context is
unavailable, or encoding produces no blob — `processImage` falls back to
selecting the original, unresized file. -/
def ReencodeFallbackClaim : Prop :=
  ∀ (file : Nat) (ctxAvail : Bool) (encoded : Option Nat),
    (ctxAvail = false ∨ encoded = none) →
    processImageOutcome true ctxAvail encoded file =
      ProcOutcome.setFile false file

/-- Division facts for `jsRound`:
`2*b*(jsRound a b) ≤ 2*a + b < 2*b*(jsRound a b + 1)`. -/
theorem jsRound_bounds (a b : Nat) (hb : 0 < b) :
    2 * b * jsRound a b ≤ 2 * a + b ∧ 2 * a + b < 2 * b * (jsRound a b + 1) := by
  unfold jsRound
  refine ⟨Nat.mul_div_le (2 * a + b) (2 * b), ?_⟩
  exact Nat.lt_mul_div_succ (2 * a + b) (by omega)

/-- C9: for every input image whose width and height are both at most 800
pixels, the preprocessor output has exactly the same dimensions as the
input — neither cap fires, so `processImage` only downscales, never
upscales. -/
theorem C9_within_bounds_unchanged (w h : Nat) (hw : w ≤ 800) (hh : h ≤ 800) :
    processDims w h = (w, h) := by
  have h1 : ¬ 800 < w := by omega
  have h2 : ¬ 800 < h := by omega
  simp [processDims, h1, h2]

/-- Witness for C9 at a concrete 640×480 input. -/
theorem C9_within_bounds_unchanged_witness :
    processDims 640 480 = (640, 480) :=
  C9_within_bounds_unchanged 640 480 (by decide) (by decide)

/-- C2: whenever the selected image is absent, or the (trimmed)
description is empty, or no gender is selected, `handleSubmit` issues no
network request and the trace ends in exactly the notification specific
to the first missing field; the three messages are pairwise distinct. -/
theorem C2_missing_input_no_network (s : FormState) (resp : Response)
    (f : Nat)
    (hmiss : s.selectedFile = none ∨ jsTrim s.description = "" ∨
      s.selectedGender = "") :
    (handleSubmit s resp).filter Ev.isNetRequest = [] ∧
    (s.selectedFile = none → handleSubmit s resp =
      [Ev.setErrorMessage "", Ev.clearToast,
       Ev.notify NotifKind.error "Please upload a sketch first"]) ∧
    (s.selectedFile = some f → jsTrim s.description = "" →
      handleSubmit s resp =
      [Ev.setErrorMessage "", Ev.clearToast,
       Ev.notify NotifKind.error "Please provide a description"]) ∧
    (s.selectedFile = some f → jsTrim s.description ≠ "" →
      s.selectedGender = "" → handleSubmit s resp =
      [Ev.setErrorMessage "", Ev.clearToast,
       Ev.notify NotifKind.error "Please select a gender"]) ∧
    ("Please upload a sketch first" ≠ "Please provide a description" ∧
     "Please upload a sketch first" ≠ "Please select a gender" ∧
     "Please provide a description" ≠ "Please select a gender") := by
  refine ⟨?_, ?_, ?_, ?_, by decide⟩
  · cases hsf : s.selectedFile with
    | none => simp [handleSubmit, hsf, Ev.isNetRequest]
    | some g =>
      rcases hmiss with hmf | hmd | hmg
      · simp [hsf] at hmf
      · simp [handleSubmit, hsf, hmd, Ev.isNetRequest]
      · by_cases hd : jsTrim s.description = ""
        · simp [handleSubmit, hsf, hd, Ev.isNetRequest]
        · simp [handleSubmit, hsf, hd, hmg, Ev.isNetRequest]
  · intro hsf; simp [handleSubmit, hsf]
  · intro hsf hd; simp [handleSubmit, hsf, hd]
  · intro hsf hd hg; simp [handleSubmit, hsf, hd, hg]

/-- Witness for C2 with no image selected. -/
theorem C2_missing_input_no_network_witness :
    (handleSubmit
      { selectedFile := none, description := "", selectedGender := "" }
      (Response.networkError "down")).filter Ev.isNetRequest = [] :=
  (C2_missing_input_no_network
    { selectedFile := none, description := "", selectedGender := "" }
    (Response.networkError "down") 0 (Or.inl rfl)).1

/-- C10: validation checks run in the fixed order image, description,
gender, returning at the first failure: a missing image is reported
whatever the other fields hold; a whitespace-only description trims to
empty and is reported as a missing description even when the gender is
also unselected. -/
theorem C10_validation_order (s : FormState) (resp : Response) (f : Nat) :
    (s.selectedFile = none → handleSubmit s resp =
      [Ev.setErrorMessage "", Ev.clearToast,
       Ev.notify NotifKind.error "Please upload a sketch first"]) ∧
    (s.selectedFile = some f → jsTrim s.description = "" →
      handleSubmit s resp =
      [Ev.setErrorMessage "", Ev.clearToast,
       Ev.notify NotifKind.error "Please provide a description"]) ∧
    (s.selectedFile = some f → jsTrim s.description ≠ "" →
      s.selectedGender = "" → handleSubmit s resp =
      [Ev.setErrorMessage "", Ev.clearToast,
       Ev.notify NotifKind.error "Please select a gender"]) ∧
    jsTrim "   " = "" ∧
    handleSubmit ⟨some f, "   ", ""⟩ resp =
      [Ev.setErrorMessage "", Ev.clearToast,
       Ev.notify NotifKind.error "Please provide a description"] := by
  refine ⟨?_, ?_, ?_, by decide, ?_⟩
  · intro hsf; simp [handleSubmit, hsf]
  · intro hsf hd; simp [handleSubmit, hsf, hd]
  · intro hsf hd hg; simp [handleSubmit, hsf, hd, hg]
  · simp [handleSubmit, show jsTrim "   " = "" from by decide]

/-- Witness for C10: whitespace-only description with no gender selected
yields the description message. -/
theorem C10_validation_order_witness :
    handleSubmit ⟨some 0, "   ", ""⟩ (Response.success 1) =
      [Ev.setErrorMessage "", Ev.clearToast,
       Ev.notify NotifKind.error "Please provide a description"] :=
  (C10_validation_order ⟨some 0, "   ", ""⟩ (Response.success 1) 0).2.2.2.2

/-- C3: a submission that passes validation issues exactly one request,
carrying the selected (preprocessed) file and the prompt
`"<description> (<gender>)"`. -/
theorem C3_single_request_combined_prompt (s : FormState) (resp : Response)
    (f : Nat) (hf : s.selectedFile = some f)
    (hd : jsTrim s.description ≠ "") (hg : s.selectedGender ≠ "") :
    (handleSubmit s resp).filter Ev.isNetRequest =
      [Ev.netRequest f (s.description ++ " (" ++ s.selectedGender ++ ")")] := by
  cases resp <;>
    simp [handleSubmit, hf, hd, hg, combinedPrompt, Ev.isNetRequest]

/-- Witness for C3: description "a smiling man" with gender "male" sends
`prompt = "a smiling man (male)"`. -/
theorem C3_single_request_combined_prompt_witness :
    (handleSubmit ⟨some 5, "a smiling man", "male"⟩
        (Response.success 9)).filter Ev.isNetRequest =
      [Ev.netRequest 5 "a smiling man (male)"] := by
  have h := C3_single_request_combined_prompt
    ⟨some 5, "a smiling man", "male"⟩ (Response.success 9) 5 rfl
    (by decide) (by decide)
  exact h.trans (by decide)

/-- C8: on every outcome of `handleSubmit` the number of interval clears
equals the number of interval starts, and whenever the progress interval
is started it is cleared exactly once — HTTP success, HTTP failure and
network exception alike; no interval timer is leaked. -/
theorem C8_interval_always_cleared (s : FormState) (resp : Response) :
    ((handleSubmit s resp).filter Ev.isIntervalStop).length =
      ((handleSubmit s resp).filter Ev.isIntervalStart).length ∧
    (Ev.startProgressInterval ∈ handleSubmit s resp →
      ((handleSubmit s resp).filter Ev.isIntervalStop).length = 1) := by
  cases hsf : s.selectedFile with
  | none =>
      simp [handleSubmit, hsf, Ev.isIntervalStop, Ev.isIntervalStart]
  | some f =>
      by_cases hd : jsTrim s.description = ""
      · simp [handleSubmit, hsf, hd, Ev.isIntervalStop, Ev.isIntervalStart]
      · by_cases hg : s.selectedGender = ""
        · simp [handleSubmit, hsf, hd, hg, Ev.isIntervalStop,
            Ev.isIntervalStart]
        · cases resp <;>
            simp [handleSubmit, hsf, hd, hg, Ev.isIntervalStop,
              Ev.isIntervalStart]

/-- Witness for C8 on the network-exception outcome. -/
theorem C8_interval_always_cleared_witness :
    ((handleSubmit ⟨some 1, "a face", "female"⟩
        (Response.networkError "offline")).filter Ev.isIntervalStop).length =
      ((handleSubmit ⟨some 1, "a face", "female"⟩
        (Response.networkError "offline")).filter Ev.isIntervalStart).length :=
  (C8_interval_always_cleared ⟨some 1, "a face", "female"⟩
    (Response.networkError "offline")).1

/-- C7: on a non-2xx response the controller logs (to the console only)
the parsed `detail`, else `message`, falling back on a JSON parse failure
to the status line `Server error: <status> <statusText>`; the user-facing
toast in both the HTTP-failure and the network-exception outcome is
always the same fixed generic string, independent of the server detail. -/
theorem C7_generic_toast_detail_logged (s : FormState) (f st : Nat)
    (stx : String) (body : Option (Option String × Option String))
    (d : String) (mOpt : Option String) (m excMsg : String)
    (hf : s.selectedFile = some f) (hd : jsTrim s.description ≠ "")
    (hg : s.selectedGender ≠ "") :
    Ev.consoleError
        ("Error processing sketch: " ++ serverErrorMessage body st stx)
      ∈ handleSubmit s (Response.httpError st stx body) ∧
    (handleSubmit s (Response.httpError st stx body)).filter Ev.isNotify =
      [Ev.notify NotifKind.error
        "Failed to process the sketch. Please try again."] ∧
    (handleSubmit s (Response.networkError excMsg)).filter Ev.isNotify =
      [Ev.notify NotifKind.error
        "Failed to process the sketch. Please try again."] ∧
    (body = none → serverErrorMessage body st stx =
      "Server error: " ++ toString st ++ " " ++ stx) ∧
    (body = some (some d, mOpt) → d ≠ "" →
      serverErrorMessage body st stx = d) ∧
    (body = some (none, some m) → m ≠ "" →
      serverErrorMessage body st stx = m) := by
  refine ⟨?_, ?_, ?_, ?_, ?_, ?_⟩
  · simp [handleSubmit, hf, hd, hg]
  · simp [handleSubmit, hf, hd, hg, Ev.isNotify]
  · simp [handleSubmit, hf, hd, hg, Ev.isNotify]
  · intro hb; simp [serverErrorMessage, hb]
  · intro hb hdne; simp [serverErrorMessage, hb, jsOrString, hdne]
  · intro hb hmne; simp [serverErrorMessage, hb, jsOrString, hmne]

/-- Witness for C7 at a 500 response whose body fails to parse as JSON. -/
theorem C7_generic_toast_detail_logged_witness :
    (handleSubmit ⟨some 1, "a face", "female"⟩
        (Response.httpError 500 "Internal Server Error" none)).filter
        Ev.isNotify =
      [Ev.notify NotifKind.error
        "Failed to process the sketch. Please try again."] :=
  (C7_generic_toast_detail_logged ⟨some 1, "a face", "female"⟩ 1 500
    "Internal Server Error" none "" none "" "x" rfl (by decide)
    (by decide)).2.1

/-- The simulated progress stays below 88 from any start below 88, when
every random increment lies in `[0, 3)`. -/
theorem foldl_progressTick_lt (rs : List ℚ) : ∀ v : ℚ, v < 88 →
    (∀ x ∈ rs, 0 ≤ x ∧ x < 3) → rs.foldl progressTick v < 88 := by
  induction rs with
  | nil => intro v hv _; simpa using hv
  | cons r rest ih =>
    intro v hv hall
    have hr := hall r (by simp)
    have hrest : ∀ x ∈ rest, 0 ≤ x ∧ x < 3 := fun x hx =>
      hall x (List.mem_cons_of_mem _ hx)
    simp only [List.foldl_cons]
    refine ih (progressTick v r) ?_ hrest
    unfold progressTick
    split
    · linarith [hr.2]
    · exact hv

/-- C4: while a submission is in flight the simulated progress only moves
upward, freezes once it reaches the 85% ceiling, and — starting from 0
with increments `Math.random() * 3 ∈ [0, 3)` — never reaches 100 on its
own; the only `setLoadingProgress(100)` in any `handleSubmit` trace
occurs on the HTTP success path. -/
theorem C4_progress_never_completes (prev r : ℚ) (rs : List ℚ)
    (s : FormState) (resp : Response) (hr : 0 ≤ r)
    (hrs : ∀ x ∈ rs, 0 ≤ x ∧ x < 3) :
    prev ≤ progressTick prev r ∧
    (85 ≤ prev → progressTick prev r = prev) ∧
    runProgress rs < 100 ∧
    (Ev.setProgress 100 ∈ handleSubmit s resp →
      ∃ b, resp = Response.success b) := by
  refine ⟨?_, ?_, ?_, ?_⟩
  · unfold progressTick; split
    · linarith
    · exact le_refl _
  · intro h85; unfold progressTick; rw [if_neg (by linarith)]
  · have h := foldl_progressTick_lt rs 0 (by norm_num) hrs
    unfold runProgress
    linarith
  · intro hmem
    cases hsf : s.selectedFile with
    | none => simp [handleSubmit, hsf] at hmem
    | some f =>
        by_cases hd : jsTrim s.description = ""
        · simp [handleSubmit, hsf, hd] at hmem
        · by_cases hg : s.selectedGender = ""
          · simp [handleSubmit, hsf, hd, hg] at hmem
          · cases resp with
            | success b => exact ⟨b, rfl⟩
            | httpError st stx body =>
                simp [handleSubmit, hsf, hd, hg] at hmem
            | networkError m =>
                simp [handleSubmit, hsf, hd, hg] at hmem

/-- Witness for C4: two in-range ticks from 0 stay below 100. -/
theorem C4_progress_never_completes_witness :
    runProgress [2, 1] < 100 :=
  (C4_progress_never_completes 0 1 [2, 1] ⟨none, "", ""⟩
    (Response.networkError "x") (by norm_num)
    (by intro x hx; simp at hx; rcases hx with rfl | rfl <;> norm_num)).2.2.1

/-- The result-handle accounting is an invariant of the life-cycle steps:
the number of live result handles is 1 exactly while a result is live. -/
theorem resultHandles_foldl_inv (steps : List UIStep) : ∀ s : UIState,
    s.resultHandles = (if s.resultLive then 1 else 0) →
    (steps.foldl stepUI s).resultHandles =
      (if (steps.foldl stepUI s).resultLive then 1 else 0) := by
  induction steps with
  | nil => intro s hs; simpa using hs
  | cons st rest ih =>
    intro s hs
    simp only [List.foldl_cons]
    refine ih (stepUI s st) ?_
    cases st <;> simp [stepUI] <;> split_ifs at hs ⊢ <;> simp_all

/-- C5 fails on the code: rendering the component twice with a sketch
selected calls `URL.createObjectURL(selectedFile)` once per render (home.tsx
line 395) and revokes nothing, so a single live sketch artifact ends up
with two live display handles. -/
theorem C5_counterexample : ¬ HandleOwnershipClaim := by
  intro hclaim
  have h := (hclaim [UIStep.selectFile 0, UIStep.render, UIStep.render]).1
  exact absurd (h (by decide)) (by decide)

/-- C5 amended: the generation result obeys the ownership rule — exactly
one live handle while a result is live, zero once it is replaced, reset or
the component unmounts — but the selected sketch receives one fresh
display handle per render (two when the modal subtree is mounted) and no
life-cycle step ever releases a sketch handle. -/
theorem C5_result_owned_sketch_leaks (steps : List UIStep) (f : Nat)
    (st : UIStep) :
    ((runUI steps).resultLive = true → (runUI steps).resultHandles = 1) ∧
    ((runUI steps).resultLive = false → (runUI steps).resultHandles = 0) ∧
    ((runUI steps).selectedFile = some f →
      (stepUI (runUI steps) UIStep.render).sketchHandles =
        (runUI steps).sketchHandles +
          (if (runUI steps).resultLive then 2 else 1)) ∧
    (runUI steps).sketchHandles ≤ (stepUI (runUI steps) st).sketchHandles := by
  have hinv : (runUI steps).resultHandles =
      (if (runUI steps).resultLive then 1 else 0) :=
    resultHandles_foldl_inv steps initUI (by simp [initUI])
  refine ⟨?_, ?_, ?_, ?_⟩
  · intro hlive; rw [hinv, hlive]; simp
  · intro hdead; rw [hinv, hdead]; simp
  · intro hsel; simp [stepUI, hsel]
  · cases st <;> simp [stepUI]

/-- Witness for C5's amended statement after one successful generation. -/
theorem C5_result_owned_sketch_leaks_witness :
    (runUI [UIStep.selectFile 0, UIStep.render, UIStep.succeed]).resultLive =
        true →
    (runUI [UIStep.selectFile 0, UIStep.render,
      UIStep.succeed]).resultHandles = 1 :=
  (C5_result_owned_sketch_leaks
    [UIStep.selectFile 0, UIStep.render, UIStep.succeed] 0 UIStep.render).1

/-- C6 fails on the code: with a 2D context available but `toBlob`
handing the callback `null`, the guard `if (blob)` (home.tsx line 173)
skips the whole body — nothing is selected, and in particular the
original file is not used as a fallback. -/
theorem C6_counterexample : ¬ ReencodeFallbackClaim := by
  intro hclaim
  exact absurd (hclaim 0 true none (Or.inr rfl)) (by decide)

/-- C6 amended: when the canvas 2D context is unavailable the original,
unresized file is selected as an accepted fallback; but when the context
exists and encoding produces no blob, `processImage` performs no state
change at all rather than falling back. -/
theorem C6_ctx_fallback_blob_drop (f : Nat) (encoded : Option Nat) :
    processImageOutcome true false encoded f = ProcOutcome.setFile false f ∧
    processImageOutcome true true none f = ProcOutcome.noAction := by
  exact ⟨by simp [processImageOutcome], by simp [processImageOutcome]⟩

/-- Witness for C6's amended statement: context unavailable, original file
selected. -/
theorem C6_ctx_fallback_blob_drop_witness :
    processImageOutcome true false (some 7) 3 = ProcOutcome.setFile false 3 :=
  (C6_ctx_fallback_blob_drop 3 (some 7)).1

/-- The two sequential caps of `processDims`, unfolded into the four
possible branch outcomes. -/
theorem processDims_eq (w h : Nat) :
    processDims w h =
      if 800 < w then
        (if 800 < jsRound (h * 800) w
         then (jsRound (800 * 800) (jsRound (h * 800) w), 800)
         else (800, jsRound (h * 800) w))
      else (if 800 < h then (jsRound (w * 800) h, 800) else (w, h)) := by
  unfold processDims
  by_cases hw8 : 800 < w
  · simp only [if_pos hw8]
  · simp only [if_neg hw8]

/-- Single width cap: one rounding step keeps the aspect ratio within
`2*(w+h)` when cross-multiplied. -/
theorem capA_bound (w h h1 : ℤ) (hw0 : 0 ≤ w) (hh0 : 0 ≤ h)
    (a1 : 2 * w * h1 ≤ 2 * (h * 800) + w)
    (a2 : 2 * (h * 800) + w < 2 * w * (h1 + 1)) :
    |h1 * w - h * 800| ≤ 2 * (w + h) := by
  rw [abs_le]
  constructor <;> linarith

/-- Single height cap: one rounding step keeps the aspect ratio within
`2*(w+h)` when cross-multiplied. -/
theorem capC_bound (w h w2 : ℤ) (hw0 : 0 ≤ w) (hh0 : 0 ≤ h)
    (c1 : 2 * h * w2 ≤ 2 * (w * 800) + h)
    (c2 : 2 * (w * 800) + h < 2 * h * (w2 + 1)) :
    |800 * w - h * w2| ≤ 2 * (w + h) := by
  rw [abs_le]
  constructor <;> linarith

/-- Both caps fire: the compounded double rounding still keeps the
cross-multiplied aspect ratio within `2*(w+h)`. -/
theorem capB_bound (w h h1 w2 : ℤ) (hw8 : 801 ≤ w) (hh0 : 0 ≤ h)
    (hcap : 801 ≤ h1)
    (a1 : 2 * w * h1 ≤ 2 * (h * 800) + w)
    (a2 : 2 * (h * 800) + w < 2 * w * (h1 + 1))
    (b1 : 2 * h1 * w2 ≤ 2 * (800 * 800) + h1)
    (b2 : 2 * (800 * 800) + h1 < 2 * h1 * (w2 + 1)) :
    |800 * w - h * w2| ≤ 2 * (w + h) := by
  have hw0 : (0 : ℤ) ≤ w := by linarith
  have h10 : (0 : ℤ) ≤ h1 := by linarith
  have hpos : (0 : ℤ) < 2 * h1 := by linarith
  have hm1 : 2 * w * 801 ≤ 2 * w * h1 :=
    mul_le_mul_of_nonneg_left hcap (by linarith)
  have hhlt : w ≤ h := by linarith
  have S1 : h * (2 * h1 * w2) ≤ h * (2 * (800 * 800) + h1) :=
    mul_le_mul_of_nonneg_left b1 hh0
  have S2 : 1280000 * h ≤ 1600 * (w * h1) + 800 * w - 800 := by linarith
  have S3 : 800 * w ≤ 4 * (w * h1) := by
    have hm : 4 * w * 801 ≤ 4 * w * h1 :=
      mul_le_mul_of_nonneg_left hcap (by linarith)
    linarith
  have hhh1 : 0 ≤ h * h1 := mul_nonneg hh0 h10
  have key : (2 * h1) * (h * w2) ≤ (2 * h1) * (802 * w + 2 * h) := by
    nlinarith [S1, S2, S3, hhh1]
  have up : h * w2 ≤ 802 * w + 2 * h := le_of_mul_le_mul_left key hpos
  have b2' : 2 * (800 * 800) + h1 ≤ 2 * h1 * w2 + 2 * h1 - 1 := by linarith
  have T1 : h * (2 * (800 * 800) + h1) ≤ h * (2 * h1 * w2 + 2 * h1 - 1) :=
    mul_le_mul_of_nonneg_left b2' hh0
  have T2 : 1596 * (w * h1) ≤ 1276800 * h + 798 * w := by linarith
  have key2 : (2 * h1) * (798 * w) ≤ (2 * h1) * (h * w2 + 2 * h) := by
    nlinarith [T1, T2, hhh1, hhlt, hh0]
  have low : 798 * w ≤ h * w2 + 2 * h := le_of_mul_le_mul_left key2 hpos
  rw [abs_le]
  constructor <;> linarith

/-- C1: for any input with a dimension beyond 800, the preprocessed
output has its larger dimension exactly 800, both dimensions at most 800,
and the original aspect ratio preserved within rounding (cross-multiplied
error at most `2*(w+h)`); in particular a 1600×1200 input yields 800×600. -/
theorem C1_oversize_capped_to_800 (w h : Nat) (hw : 0 < w) (hh : 0 < h) (hbig : 800 < max w h) :
    max (processDims w h).1 (processDims w h).2 = 800 ∧
    (processDims w h).1 ≤ 800 ∧ (processDims w h).2 ≤ 800 ∧
    |((processDims w h).2 : ℤ) * (w : ℤ) - (h : ℤ) * ((processDims w h).1 : ℤ)| ≤
      2 * ((w : ℤ) + (h : ℤ)) ∧
    processDims 1600 1200 = (800, 600) := by
  have hex : processDims 1600 1200 = (800, 600) := by decide
  by_cases hw8 : 800 < w
  · obtain ⟨hA1, hA2⟩ := jsRound_bounds (h * 800) w (by omega)
    by_cases hcap : 800 < jsRound (h * 800) w
    · -- both caps fire
      obtain ⟨hB1, hB2⟩ :=
        jsRound_bounds (800 * 800) (jsRound (h * 800) w) (by omega)
      have hp : processDims w h =
          (jsRound (800 * 800) (jsRound (h * 800) w), 800) := by
        rw [processDims_eq, if_pos hw8, if_pos hcap]
      have hw2lt : jsRound (800 * 800) (jsRound (h * 800) w) < 800 := by
        by_contra hge
        push_neg at hge
        have hmul : 2 * jsRound (h * 800) w * 800 ≤
            2 * jsRound (h * 800) w * jsRound (800 * 800) (jsRound (h * 800) w) :=
          Nat.mul_le_mul_left _ hge
        have := le_trans hmul hB1
        omega
      have habs : |(800 : ℤ) * (w : ℤ) - (h : ℤ) *
          (jsRound (800 * 800) (jsRound (h * 800) w) : ℤ)| ≤
          2 * ((w : ℤ) + (h : ℤ)) := by
        refine capB_bound (w : ℤ) (h : ℤ) (jsRound (h * 800) w : ℤ)
          (jsRound (800 * 800) (jsRound (h * 800) w) : ℤ) (by omega)
          (Int.ofNat_nonneg h) (by omega) (by exact_mod_cast hA1)
          (by exact_mod_cast hA2) (by exact_mod_cast hB1)
          (by exact_mod_cast hB2)
      rw [hp]
      refine ⟨Nat.max_eq_right (by omega), by omega, le_refl _, ?_, hex⟩
      dsimp only
      push_cast
      push_cast at habs
      exact habs
    · -- only the width cap fires
      have hp : processDims w h = (800, jsRound (h * 800) w) := by
        rw [processDims_eq, if_pos hw8, if_neg hcap]
      have habs : |(jsRound (h * 800) w : ℤ) * (w : ℤ) - (h : ℤ) * (800 : ℤ)| ≤
          2 * ((w : ℤ) + (h : ℤ)) := by
        refine capA_bound (w : ℤ) (h : ℤ) (jsRound (h * 800) w : ℤ)
          (Int.ofNat_nonneg w) (Int.ofNat_nonneg h)
          (by exact_mod_cast hA1) (by exact_mod_cast hA2)
      rw [hp]
      refine ⟨Nat.max_eq_left (by omega), le_refl _, by omega, ?_, hex⟩
      dsimp only
      push_cast
      push_cast at habs
      exact habs
  · -- w ≤ 800, so 800 < h and only the height cap fires
    have hh8 : 800 < h := by
      rcases lt_max_iff.mp hbig with hl | hl
      · omega
      · exact hl
    obtain ⟨hC1, hC2⟩ := jsRound_bounds (w * 800) h (by omega)
    have hp : processDims w h = (jsRound (w * 800) h, 800) := by
      rw [processDims_eq, if_neg hw8, if_pos hh8]
    have hw2le : jsRound (w * 800) h ≤ 800 := by
      by_contra hge
      push_neg at hge
      have hmul : 2 * h * 801 ≤ 2 * h * jsRound (w * 800) h :=
        Nat.mul_le_mul_left _ hge
      have := le_trans hmul hC1
      omega
    have habs : |(800 : ℤ) * (w : ℤ) - (h : ℤ) * (jsRound (w * 800) h : ℤ)| ≤
        2 * ((w : ℤ) + (h : ℤ)) := by
      refine capC_bound (w : ℤ) (h : ℤ) (jsRound (w * 800) h : ℤ)
        (Int.ofNat_nonneg w) (Int.ofNat_nonneg h)
        (by exact_mod_cast hC1) (by exact_mod_cast hC2)
    rw [hp]
    refine ⟨Nat.max_eq_right hw2le, by omega, le_refl _, ?_, hex⟩
    dsimp only
    push_cast
    push_cast at habs
    exact habs

/-- Witness for C1 at the spec's 1600×1200 example. -/
theorem C1_oversize_capped_to_800_witness :
    max (processDims 1600 1200).1 (processDims 1600 1200).2 = 800 :=
  (C1_oversize_capped_to_800 1600 1200 (by decide) (by decide) (by decide)).1

end SketchToFace

